import Mathlib

/-!
Verification development for the three agent variants in this repository
(src/Agent_Pstorage, src/Lvl3Agent, src/UWAgent).  The Python sources are
shallowly embedded: the reasoning engine (`_call_llm` / ollama) is modelled
as an oracle `Nat → String` giving the engine's reply for each successive
call in a turn, and the MCP tool boundary (`_call_mcp_tool`) is modelled as
a function `Json → Json → Except String String` (`.error` models a raised
Python exception crossing the boundary, `.ok` a returned text payload).
Conversation history, tool executions and the reasoning-engine call count
are threaded explicitly so that the controller's observable behaviour per
user turn is a pure value.
-/

/-- JSON values as produced by Python `json.loads`: objects keep the textual
field order (Python dicts preserve insertion order).  Numbers are modelled
as integers, which covers every numeric literal appearing in this
repository's tool-request shapes. -/
inductive Json where
  | null
  | bool (b : Bool)
  | num (n : Int)
  | str (s : String)
  | arr (elems : List Json)
  | obj (fields : List (String × Json))

/-- Python `d[k]` / `d.get(k)` on a parsed JSON object: duplicate keys in the
source text resolve to the last occurrence, as in `json.loads`. -/
def jlookup (fs : List (String × Json)) (k : String) : Option Json :=
  match fs with
  | [] => none
  | (k', v) :: rest =>
    match jlookup rest k with
    | some r => some r
    | none => if k' = k then some v else none

/-- Python `d.get(k)` with `None` (modelled as `Json.null`) when the key is
absent or the value is not a dict; used for `tool_args.get("borrower")`
etc. in `_maybe_persist_task`. -/
def jget (j : Json) (k : String) : Json :=
  match j with
  | .obj fs => (jlookup fs k).getD .null
  | _ => .null

/-- Python truthiness (`if task_id:`) of a decoded JSON value. -/
def jsonTruthy : Json → Bool
  | .null => false
  | .bool b => b
  | .num n => if n = 0 then false else true
  | .str s => if s = "" then false else true
  | .arr es => if es.isEmpty then false else true
  | .obj fs => if fs.isEmpty then false else true

/-- Python `tool_name == "some_string"`: equality of a decoded JSON value
against a string literal (true only for an equal JSON string). -/
def jsonEqStr (j : Json) (s : String) : Bool :=
  match j with
  | .str t => t = s
  | _ => false

/-- Keys of a JSON object (empty for non-objects). -/
def jsonKeys : Json → List String
  | .obj fs => fs.map Prod.fst
  | _ => []

/-- Skip JSON whitespace, as the decoder does between tokens. -/
def skipWs : List Char → List Char
  | [] => []
  | c :: rest =>
    if c = ' ' ∨ c = '\n' ∨ c = '\t' ∨ c = '\r' then skipWs rest else c :: rest

/-- Decode the remainder of a JSON string literal (after the opening quote),
handling the escape sequences used in this repository's payloads. -/
def parseStrChars : List Char → Option (String × List Char)
  | [] => none
  | '"' :: rest => some ("", rest)
  | '\\' :: c :: rest =>
    let ec? : Option Char :=
      if c = '"' then some '"'
      else if c = '\\' then some '\\'
      else if c = '/' then some '/'
      else if c = 'n' then some '\n'
      else if c = 't' then some '\t'
      else if c = 'r' then some '\r'
      else none
    match ec? with
    | none => none
    | some ec =>
      match parseStrChars rest with
      | none => none
      | some (s, r) => some (String.singleton ec ++ s, r)
  | c :: rest =>
    match parseStrChars rest with
    | none => none
    | some (s, r) => some (String.singleton c ++ s, r)

/-- Accumulate a decimal integer from digit characters. -/
def digitsToNat (acc : Nat) : List Char → Nat
  | [] => acc
  | c :: rest => digitsToNat (acc * 10 + (c.toNat - '0'.toNat)) rest

mutual

/-- Recursive-descent JSON value decoder modelling Python `json.loads` on the
JSON subset this repository exchanges (objects, arrays, strings, integers,
booleans, null); `fuel` bounds nesting and is taken large enough by the
entry point that it never runs out on a parseable input. -/
def parseVal : Nat → List Char → Option (Json × List Char)
  | 0, _ => none
  | fuel + 1, cs =>
    match skipWs cs with
    | [] => none
    | '\x7b' :: rest =>
      (match skipWs rest with
       | '\x7d' :: r2 => some (.obj [], r2)
       | r2 =>
         match parseFields fuel r2 with
         | none => none
         | some (ms, r3) => some (.obj ms, r3))
    | '[' :: rest =>
      (match skipWs rest with
       | ']' :: r2 => some (.arr [], r2)
       | r2 =>
         match parseItems fuel r2 with
         | none => none
         | some (es, r3) => some (.arr es, r3))
    | '"' :: rest =>
      (match parseStrChars rest with
       | none => none
       | some (s, r2) => some (.str s, r2))
    | 't' :: 'r' :: 'u' :: 'e' :: rest => some (.bool true, rest)
    | 'f' :: 'a' :: 'l' :: 's' :: 'e' :: rest => some (.bool false, rest)
    | 'n' :: 'u' :: 'l' :: 'l' :: rest => some (.null, rest)
    | '-' :: rest =>
      (match rest.span Char.isDigit with
       | ([], _) => none
       | (ds, r2) => some (.num (-(digitsToNat 0 ds : Nat) : Int), r2))
    | c :: rest =>
      if c.isDigit then
        match (c :: rest).span Char.isDigit with
        | (ds, r2) => some (.num (digitsToNat 0 ds : Nat), r2)
      else none

/-- Decode the members of a JSON object after `\x7b` (nonempty case). -/
def parseFields : Nat → List Char → Option (List (String × Json) × List Char)
  | 0, _ => none
  | fuel + 1, cs =>
    match skipWs cs with
    | '"' :: rest =>
      (match parseStrChars rest with
       | none => none
       | some (k, r2) =>
         match skipWs r2 with
         | ':' :: r3 =>
           (match parseVal fuel r3 with
            | none => none
            | some (v, r4) =>
              match skipWs r4 with
              | ',' :: r5 =>
                (match parseFields fuel r5 with
                 | none => none
                 | some (ms, r6) => some ((k, v) :: ms, r6))
              | '\x7d' :: r5 => some ([(k, v)], r5)
              | _ => none)
         | _ => none)
    | _ => none

/-- Decode the elements of a JSON array after `[` (nonempty case). -/
def parseItems : Nat → List Char → Option (List Json × List Char)
  | 0, _ => none
  | fuel + 1, cs =>
    match parseVal fuel cs with
    | none => none
    | some (v, r1) =>
      match skipWs r1 with
      | ',' :: r2 =>
        (match parseItems fuel r2 with
         | none => none
         | some (es, r3) => some (v :: es, r3))
      | ']' :: r2 => some ([v], r2)
      | _ => none

end

/-- Python `json.loads`: decode a whole string, rejecting trailing data
(raising `JSONDecodeError`, modelled as `.error`). -/
def jsonLoads (s : String) : Except String Json :=
  match parseVal (s.length + 1) s.data with
  | none => .error "JSONDecodeError"
  | some (v, rest) =>
    if (skipWs rest).isEmpty then .ok v else .error "JSONDecodeError"

/-- Whitespace test for `str.strip()`. -/
def isWsChar (c : Char) : Bool := c = ' ' || c = '\t' || c = '\n' || c = '\r'

/-- Drop leading whitespace characters. -/
def dropWs : List Char → List Char
  | [] => []
  | c :: rest => if isWsChar c then dropWs rest else c :: rest

/-- Python `str.strip()`: remove leading and trailing whitespace. -/
def strTrim (s : String) : String :=
  ⟨((dropWs ((dropWs s.data).reverse)).reverse)⟩

/-- Lower-case an ASCII letter (Python `str.lower()` on the ASCII texts this
repository matches against). -/
def lowerChar (c : Char) : Char :=
  if 'A' ≤ c ∧ c ≤ 'Z' then Char.ofNat (c.toNat + 32) else c

/-- Python `str.lower()`. -/
def strLower (s : String) : String := ⟨s.data.map lowerChar⟩

/-- Python `str.startswith`. -/
def strStartsWith (s pre : String) : Bool := pre.data.isPrefixOf s.data

/-- Python `str.endswith`. -/
def strEndsWith (s suf : String) : Bool := suf.data.reverse.isPrefixOf s.data.reverse

/-- Escape the characters of a string for JSON emission, as Python
`json.dumps` does for the payloads this repository produces. -/
def escChars : List Char → String
  | [] => ""
  | c :: rest =>
    (if c = '"' then "\\\""
     else if c = '\\' then "\\\\"
     else if c = '\n' then "\\n"
     else if c = '\t' then "\\t"
     else if c = '\r' then "\\r"
     else String.singleton c) ++ escChars rest

mutual

/-- Python `json.dumps` with its default separators (used by the controller
when it appends a chained tool request to the conversation history). -/
def jsonDumps : Json → String
  | .null => "null"
  | .bool true => "true"
  | .bool false => "false"
  | .num n => toString n
  | .str s => "\"" ++ escChars s.data ++ "\""
  | .arr es => "[" ++ dumpsElems es ++ "]"
  | .obj fs => "\x7b" ++ dumpsFields fs ++ "\x7d"

/-- Comma-joined renderings of array elements for `jsonDumps`. -/
def dumpsElems : List Json → String
  | [] => ""
  | [e] => jsonDumps e
  | e :: rest => jsonDumps e ++ ", " ++ dumpsElems rest

/-- Comma-joined `"key": value` renderings of object members for
`jsonDumps`. -/
def dumpsFields : List (String × Json) → String
  | [] => ""
  | [(k, v)] => "\"" ++ escChars k.data ++ "\": " ++ jsonDumps v
  | (k, v) :: rest =>
    "\"" ++ escChars k.data ++ "\": " ++ jsonDumps v ++ ", " ++ dumpsFields rest

end

/-- Python `str()` of a decoded JSON value, used when the controller
interpolates a tool name into an f-string; for the string tool names this
repository uses it is the raw string. -/
def pyStr : Json → String
  | .str s => s
  | j => jsonDumps j

/-- One conversation turn, as stored in `conversation_history`
(src/Agent_Pstorage/agent_core/agent.py line 68): a role tag and text. -/
structure Msg where
  role : String
  content : String

/-- Observable outcome of one `run_agent_turn_async` invocation in the
Agent_Pstorage variant: the returned string (`.error` models an unhandled
Python exception escaping to the caller), the conversation history after
the turn, the ordered log of `_call_mcp_tool` invocations (tool name and
arguments), the number of reasoning-engine calls made, and whether the
turn ended by exhausting the iteration ceiling. -/
structure TurnResult where
  result : Except String String
  hist : List Msg
  calls : List (Json × Json)
  llm : Nat
  exhausted : Bool

/-- Shape test from `_try_parse_tool_request`
(src/Agent_Pstorage/agent_core/agent.py lines 198-199, identically
src/Lvl3Agent/agent_core/agent.py lines 261-267): the parsed value must be
a dict containing a "tool" key and an "arguments" key whose value is a
dict. -/
def isToolShape : Json → Bool
  | .obj fs =>
    (jlookup fs "tool").isSome &&
      (match jlookup fs "arguments" with
       | some (.obj _) => true
       | _ => false)
  | _ => false

/-- The response classifier `_try_parse_tool_request`
(src/Agent_Pstorage/agent_core/agent.py lines 190-200, identical in
src/Lvl3Agent/agent_core/agent.py lines 240-269): trim, reject unless the
text starts with a brace and ends with a brace, parse (decode failure
caught, yielding None), then the two-key shape test; `none` means the
reply is treated as a FinalAnswer. -/
def tryParseToolRequest (maybeJson : String) : Option Json :=
  let txt := strTrim maybeJson
  if strStartsWith txt "\x7b" && strEndsWith txt "\x7d" then
    match jsonLoads txt with
    | .error _ => none
    | .ok parsed => if isToolShape parsed then some parsed else none
  else none

/-- The fixed exhaustion message of both looping variants
(src/Agent_Pstorage/agent_core/agent.py lines 296-299,
src/Lvl3Agent/agent_core/agent.py lines 372-375). -/
def safetyMsg : String :=
  "I tried too many tool steps without producing a final answer. Here\x27s what I gathered so far, but you should clarify:"

/-- Python's `needle in hay` substring test on character lists. -/
def subInfix (needle : List Char) : List Char → Bool
  | [] => needle.isEmpty
  | c :: rest => needle.isPrefixOf (c :: rest) || subInfix needle rest

/-- The pipeline/queue override test of the Agent_Pstorage variant
(src/Agent_Pstorage/agent_core/agent.py lines 210-211): case-insensitive
substring match of "pipeline" or "queue" in the user text. -/
def overrideHit (userText : String) : Bool :=
  let lt := strLower userText
  subInfix "pipeline".data lt.data || subInfix "queue".data lt.data

/-- The declared parameters of the `record_task` tool
(src/Agent_Pstorage/agent_core/mcp_server.py line 170:
`record_task(borrower, officer, note, status="open")`). -/
def recordTaskParams : List String := ["borrower", "officer", "note", "status"]

/-- Argument mapping that `_maybe_persist_task` builds for its `record_task`
mirror call (src/Agent_Pstorage/agent_core/agent.py lines 123-137):
borrower/officer/note pulled from the original arguments, status "open",
plus a "task_id" key whenever the tool output decodes to a dict with a
truthy `task_id` (decode failures caught, leaving `task_id` unset). -/
def persistArgs (toolArgs : Json) (toolOutput : String) : Json :=
  let taskId : Json :=
    match jsonLoads toolOutput with
    | .ok (.obj fs) => (jlookup fs "task_id").getD .null
    | _ => .null
  .obj ([("borrower", jget toolArgs "borrower"),
         ("officer", jget toolArgs "officer"),
         ("note", jget toolArgs "note"),
         ("status", .str "open")] ++
        (if jsonTruthy taskId then [("task_id", taskId)] else []))

/-- The `record_task` mirror call that `_maybe_persist_task` issues after a
`create_work_item` execution (src/Agent_Pstorage/agent_core/agent.py lines
119-142), as a list of tool invocations (empty for every other tool).  The
source wraps the call in `try: ... except Exception: pass`, so its outcome
is discarded: the embedding records the invocation but never consults the
tool's result, which is exactly the observable content of the swallow. -/
def maybePersistCalls (toolName : Json) (toolArgs : Json) (toolOutput : String)
    : List (Json × Json) :=
  if jsonEqStr toolName "create_work_item" then
    [(.str "record_task", persistArgs toolArgs toolOutput)]
  else []

/-- The `while step_count < max_steps` loop of the Agent_Pstorage
`run_agent_turn_async` (src/Agent_Pstorage/agent_core/agent.py lines
230-301), with `steps` counting the remaining iterations, `k` the index of
the next reasoning-engine call, and `hist`/`calls` the accumulated
conversation history and tool-execution log.  Each iteration: ask the
engine (one retry on empty), classify; a FinalAnswer is appended and
returned; a ToolRequest is executed (a tool fault propagates — the source
has no try/except), mirrored via `_maybe_persist_task`, then the engine is
re-asked (one retry on empty, one re-ask on a brace-delimited reply); a
second ToolRequest is appended together with its result as synthetic
turns and the loop continues.  Exhausting the ceiling returns
`safetyMsg`. -/
def psLoop (oracle : Nat → String) (tool : Json → Json → Except String String) :
    Nat → Nat → List Msg → List (Json × Json) → TurnResult
  | 0, k, hist, calls =>
    { result := .ok safetyMsg, hist := hist ++ [⟨"assistant", safetyMsg⟩],
      calls := calls, llm := k, exhausted := true }
  | steps + 1, k, hist, calls =>
    let r0 := strTrim (oracle k)
    let reply := if r0 = "" then strTrim (oracle (k + 1)) else r0
    let k1 := if r0 = "" then k + 2 else k + 1
    match tryParseToolRequest reply with
    | none =>
      let fin := strTrim reply
      { result := .ok fin, hist := hist ++ [⟨"assistant", fin⟩],
        calls := calls, llm := k1, exhausted := false }
    | some parsed =>
      let tname := jget parsed "tool"
      let targs := jget parsed "arguments"
      match tool tname targs with
      | .error e =>
        { result := .error e, hist := hist,
          calls := calls ++ [(tname, targs)], llm := k1, exhausted := false }
      | .ok toolOut =>
        let calls1 := calls ++ [(tname, targs)] ++ maybePersistCalls tname targs toolOut
        let s1 := strTrim (oracle k1)
        let s2 := if s1 = "" then strTrim (oracle (k1 + 1)) else s1
        let k2 := if s1 = "" then k1 + 2 else k1 + 1
        let s3 := if strStartsWith s2 "\x7b" && strEndsWith s2 "\x7d" then strTrim (oracle k2) else s2
        let k3 := if strStartsWith s2 "\x7b" && strEndsWith s2 "\x7d" then k2 + 1 else k2
        match tryParseToolRequest s3 with
        | none =>
          let fin := strTrim s3
          { result := .ok fin, hist := hist ++ [⟨"assistant", fin⟩],
            calls := calls1, llm := k3, exhausted := false }
        | some p2 =>
          let hist1 := hist ++ [⟨"assistant", jsonDumps p2⟩]
          let n2 := jget p2 "tool"
          let a2 := jget p2 "arguments"
          match tool n2 a2 with
          | .error e =>
            { result := .error e, hist := hist1,
              calls := calls1 ++ [(n2, a2)], llm := k3, exhausted := false }
          | .ok out2 =>
            let hist2 := hist1 ++
              [⟨"system", "Tool \x27" ++ pyStr n2 ++ "\x27 returned:\n" ++ out2⟩]
            psLoop oracle tool steps k3 hist2 (calls1 ++ [(n2, a2)])

/-- The Agent_Pstorage `run_agent_turn_async`
(src/Agent_Pstorage/agent_core/agent.py lines 206-301): append the user
turn; if the lowered user text contains "pipeline" or "queue", run the
override path (one fixed `get_tasks {status: "open"}` call, one
summarization ask with one empty retry, falling back to the fixed string
"No tasks found."; note the override path returns without appending the
answer to the history); otherwise run the bounded loop with
`max_steps = 5`. -/
def psRunAgentTurn (oracle : Nat → String) (tool : Json → Json → Except String String)
    (hist0 : List Msg) (userText : String) : TurnResult :=
  let hist1 := hist0 ++ [⟨"user", userText⟩]
  if overrideHit userText then
    let tname := Json.str "get_tasks"
    let targs := Json.obj [("status", Json.str "open")]
    match tool tname targs with
    | .error e =>
      { result := .error e, hist := hist1, calls := [(tname, targs)],
        llm := 0, exhausted := false }
    | .ok _toolOutput =>
      let s1 := strTrim (oracle 0)
      if s1 = "" then
        let s2 := strTrim (oracle 1)
        { result := .ok (if s2 = "" then "No tasks found." else s2),
          hist := hist1, calls := [(tname, targs)], llm := 2, exhausted := false }
      else
        { result := .ok s1, hist := hist1, calls := [(tname, targs)],
          llm := 1, exhausted := false }
  else
    psLoop oracle tool 5 0 hist1 []

/-- Outcome of one UWAgent `run_agent_turn_async` invocation
(src/UWAgent/agent_core/agent.py lines 114-216): returned string or
propagated exception, history after the turn, and the tool-execution
log. -/
structure UwTurnResult where
  result : Except String String
  hist : List Msg
  calls : List (Json × Json)

/-- The UWAgent inline classification of the first model reply
(src/UWAgent/agent_core/agent.py lines 171-177): `json.loads` with only
`JSONDecodeError` caught (decode failure means "no tool requested"), then
unguarded `parsed["tool"]` and `parsed["arguments"]` subscripts — a
missing key raises `KeyError` and a non-dict parse result raises
`TypeError`, neither of which the source catches. -/
def uwClassify (firstReply : String) : Except String (Option (Json × Json)) :=
  match jsonLoads firstReply with
  | .error _ => .ok none
  | .ok parsed =>
    match parsed with
    | .obj fs =>
      (match jlookup fs "tool" with
       | none => .error "KeyError: tool"
       | some t =>
         match jlookup fs "arguments" with
         | none => .error "KeyError: arguments"
         | some a => .ok (some (t, a)))
    | _ => .error "TypeError: value is not subscriptable by a string key"

/-- The UWAgent `run_agent_turn_async`
(src/UWAgent/agent_core/agent.py lines 114-216): append the user turn, ask
the engine (one retry on empty), classify via the inline `json.loads`
block; with no tool requested the reply is appended and returned; with a
tool requested the tool is executed once (a fault propagates — no
try/except), the engine is asked once more, and that follow-up reply is
appended and returned verbatim, never re-classified.  There is no loop and
no second tool execution. -/
def uwRunAgentTurn (oracle : Nat → String) (tool : Json → Json → Except String String)
    (hist0 : List Msg) (userText : String) : UwTurnResult :=
  let hist1 := hist0 ++ [⟨"user", userText⟩]
  let r0 := strTrim (oracle 0)
  let firstReply := if r0 = "" then strTrim (oracle 1) else r0
  let k := if r0 = "" then 2 else 1
  match uwClassify firstReply with
  | .error e => { result := .error e, hist := hist1, calls := [] }
  | .ok none =>
    { result := .ok firstReply, hist := hist1 ++ [⟨"assistant", firstReply⟩],
      calls := [] }
  | .ok (some (tname, targs)) =>
    match tool tname targs with
    | .error e => { result := .error e, hist := hist1, calls := [(tname, targs)] }
    | .ok _toolOutput =>
      let finalReply := strTrim (oracle k)
      { result := .ok finalReply,
        hist := hist1 ++ [⟨"assistant", finalReply⟩],
        calls := [(tname, targs)] }

/-- The Agent_Pstorage `read_file` tool
(src/Agent_Pstorage/agent_core/mcp_server.py lines 94-104, identical logic
in src/Lvl3Agent/agent_core/mcp_server.py lines 75-85): open the given
path directly — there is no allowed-root containment check of any kind —
returning the content, or an error text if opening raises.  The local
filesystem is modelled as a partial map from absolute resolved paths to
contents. -/
def psReadFile (fs : String → Option String) (path : String) : String :=
  match fs path with
  | some content => content
  | none => "[read_file error] FileNotFoundError: " ++ path

/-- Cut a character list at every slash. -/
def splitSlash : List Char → List (List Char)
  | [] => [[]]
  | c :: rest =>
    if c = '/' then [] :: splitSlash rest
    else
      match splitSlash rest with
      | [] => [[c]]
      | g :: gs => (c :: g) :: gs

/-- Split a path string into its nonempty components. -/
def splitPath (s : String) : List String :=
  ((splitSlash s.data).map (fun g => String.mk g)).filter (fun t => t ≠ "")

/-- The component normalisation performed by `pathlib.Path.resolve`:
`..` pops the previous component, `.` is dropped. -/
def resolveComps (acc : List String) : List String → List String
  | [] => acc
  | c :: rest =>
    if c = ".." then resolveComps acc.dropLast rest
    else if c = "." then resolveComps acc rest
    else resolveComps (acc ++ [c]) rest

/-- Slash-join path components. -/
def joinAux : List String → String
  | [] => ""
  | [c] => c
  | c :: rest => c ++ "/" ++ joinAux rest

/-- Render path components back to an absolute path string. -/
def joinComps (cs : List String) : String := "/" ++ joinAux cs

/-- The UWAgent allowed root `ALLOWED_ROOT = Path("./shared").resolve()`
(src/UWAgent/agent_core/mcp_server.py line 18), with the process working
directory modelled as `/home/agent`. -/
def allowedRootStr : String := "/home/agent/shared"

/-- The resolved candidate `(ALLOWED_ROOT / path).resolve()` of the UWAgent
`read_file` (src/UWAgent/agent_core/mcp_server.py line 46); as in
`pathlib`, an absolute `path` ignores the root it is joined onto. -/
def uwCandidate (path : String) : String :=
  if strStartsWith path "/" then joinComps (resolveComps [] (splitPath path))
  else joinComps (resolveComps [] (splitPath allowedRootStr ++ splitPath path))

/-- The UWAgent sandbox check (src/UWAgent/agent_core/mcp_server.py line 49):
`str(candidate).startswith(str(ALLOWED_ROOT))`, a textual prefix test on
the resolved path. -/
def uwReadFileAllowed (path : String) : Bool :=
  strStartsWith (uwCandidate path) allowedRootStr

/-- Containment in the allowed root as a directory (the property the claim
and the UWAgent docstring describe): the resolved candidate's components
extend the root's components. -/
def isWithinRoot (candidate : String) : Bool :=
  (splitPath allowedRootStr).isPrefixOf (splitPath candidate)

/-- The UWAgent `read_file` tool (src/UWAgent/agent_core/mcp_server.py lines
32-55): resolve the candidate, raise `ValueError` when the textual prefix
check fails, raise `FileNotFoundError` when the candidate is missing,
otherwise return the content. -/
def uwReadFile (fs : String → Option String) (path : String) : Except String String :=
  let candidate := uwCandidate path
  if uwReadFileAllowed path = false then
    .error "ValueError: Access denied: outside allowed directory."
  else
    match fs candidate with
    | none => .error ("FileNotFoundError: " ++ candidate ++ " not found.")
    | some content => .ok content

/-- Integer-part/den rendering of a rational standing in for Python's float
repr inside the explanation text of `debt_yield` (the claims only concern
the division-by-zero branch, whose text is exact). -/
def ratRepr (q : Rat) : String :=
  if q.den = 1 then toString q.num ++ ".0" else toString q.num ++ "/" ++ toString q.den

/-- The Agent_Pstorage `debt_yield` tool
(src/Agent_Pstorage/agent_core/mcp_server.py lines 110-131): the division
is wrapped in `try/except Exception`, so a zero loan amount yields the
returned error text `"[debt_yield error] ZeroDivisionError: float division
by zero"` (Python raises `ZeroDivisionError` for `float / 0.0`), and
otherwise a step-by-step explanation string is returned.  Numerics are
modelled as rationals. -/
def debt_yield_ps (noi loan : Rat) : String :=
  if loan = 0 then
    "[debt_yield error] ZeroDivisionError: float division by zero"
  else
    "Debt Yield Calculation:\n" ++
    "NOI = " ++ ratRepr noi ++ "\n" ++
    "Loan Amount = " ++ ratRepr loan ++ "\n" ++
    "Debt Yield = NOI / Loan Amount * 100\n" ++
    "           = " ++ ratRepr noi ++ " / " ++ ratRepr loan ++ " * 100\n" ++
    "           = " ++ ratRepr (noi / loan * 100) ++ "%\n"

/-- The UWAgent `debt_yield` tool (src/UWAgent/agent_core/mcp_server.py
lines 61-76): a zero loan amount RAISES `ValueError("loan_amount cannot be
0.")` — the function does not return an error text; otherwise it returns
the quotient. -/
def debt_yield_uw (noi loan : Rat) : Except String Rat :=
  if loan = 0 then .error "ValueError: loan_amount cannot be 0."
  else .ok (noi / loan)

/-- Strict-JSON model reply requesting the mutating `create_work_item` tool. -/
def cwReqStr : String :=
  "\x7b\"tool\": \"create_work_item\", \"arguments\": \x7b\"borrower\": \"ACME Industrial LLC\", \"officer\": \"Lopez\", \"note\": \"Get updated rent roll\"\x7d\x7d"

/-- Engine oracle that immediately requests `create_work_item` and then gives
a plain-English answer: the first reply a user turn with no prior
confirmation can elicit. -/
def c1Oracle : Nat → String :=
  fun k => if k = 0 then cwReqStr else "Created the task for Lopez."

/-- Tool boundary whose every call succeeds, answering with an n8n-style
payload carrying a `task_id`. -/
def c1Tool : Json → Json → Except String String :=
  fun _ _ => .ok "\x7b\"task_id\": \"999\"\x7d"

/-- Strict-JSON model reply requesting the read-only `get_tasks` tool. -/
def gtReqStr : String := "\x7b\"tool\": \"get_tasks\", \"arguments\": \x7b\x7d\x7d"

/-- Engine oracle that answers every ask with the same `get_tasks` request,
so the controller keeps chaining tools until the ceiling. -/
def gtOracle : Nat → String := fun _ => gtReqStr

/-- Tool boundary that always succeeds with an opaque payload. -/
def psOkTool : Json → Json → Except String String := fun _ _ => .ok "TASKDATA"

/-- Strict-JSON model reply naming a tool outside the catalog. -/
def bogusReqStr : String := "\x7b\"tool\": \"bogus_tool\", \"arguments\": \x7b\x7d\x7d"

/-- Engine oracle that requests the unknown tool. -/
def c4Oracle : Nat → String := fun _ => bogusReqStr

/-- Tool boundary that faults on the unknown tool name, as the fastmcp
client does when a syntactically valid request names a tool outside the
catalog, and succeeds on every catalog tool. -/
def c4Tool : Json → Json → Except String String :=
  fun n _ =>
    if jsonEqStr n "bogus_tool" then .error "ToolError: Unknown tool: bogus_tool"
    else .ok "ok"

/-- Engine oracle whose summarization reply is structured JSON. -/
def c5Oracle : Nat → String := fun _ => "\x7b\"a\": 1\x7d"

/-- Tool boundary answering the override's fixed `get_tasks` call with a raw
task payload. -/
def c5Tool : Json → Json → Except String String :=
  fun n _ => if jsonEqStr n "get_tasks" then .ok "RAW_TASK_DATA" else .error "unexpected tool"

/-- Engine oracle giving a nonempty plain-English override summary. -/
def c5wOracle : Nat → String := fun _ => "Open tasks: two for Lopez."

/-- Tool boundary for the override witness run. -/
def c5wTool : Json → Json → Except String String :=
  fun n _ => if jsonEqStr n "get_tasks" then .ok "ROWS" else .error "unexpected tool"

/-- Engine oracle giving a plain-English override summary. -/
def c6Oracle : Nat → String := fun _ => "All done."

/-- Tool boundary for the override history run. -/
def c6Tool : Json → Json → Except String String :=
  fun n _ => if jsonEqStr n "get_tasks" then .ok "ROWS2" else .error "unexpected tool"

/-- Engine oracle that answers plainly with no tool request. -/
def c6wOracle : Nat → String := fun _ => "Hi!"

/-- Tool boundary for the plain-answer witness run (never reached). -/
def c6wTool : Json → Json → Except String String := fun _ _ => .ok "x"

/-- Model reply that is a brace-delimited JSON object without the two-key
tool-request shape. -/
def uwC3Oracle : Nat → String := fun _ => "\x7b\"a\": 1\x7d"

/-- Tool boundary for the UWAgent classifier run (never reached). -/
def uwC3Tool : Json → Json → Except String String := fun _ _ => .ok "ok"

/-- Strict-JSON model reply requesting `get_pipeline_summary`. -/
def gpReqStr : String := "\x7b\"tool\": \"get_pipeline_summary\", \"arguments\": \x7b\x7d\x7d"

/-- Engine oracle whose every reply is the same tool request, so the reply
produced after the tool result is itself a syntactically valid tool
request. -/
def gpOracle : Nat → String := fun _ => gpReqStr

/-- Tool boundary that always succeeds for the UWAgent run. -/
def uwOkTool : Json → Json → Except String String := fun _ _ => .ok "PIPELINE DATA"

/-- Local filesystem with a file outside the allowed root and a sibling
directory whose name shares the allowed root as a textual prefix. -/
def evilFs : String → Option String := fun p =>
  if p = "/home/agent/shared_evil/secret.txt" then some "TOP SECRET"
  else if p = "/etc/passwd" then some "root:x:0:0:root:/root:/bin/bash"
  else none

/-- Engine oracle for the persistence-mirror run: request `create_work_item`,
then answer plainly. -/
def c10Oracle : Nat → String :=
  fun k => if k = 0 then cwReqStr else "Task created and mirrored."

/-- Tool boundary where `record_task` succeeds and `create_work_item`
returns a payload with a `task_id`. -/
def persistOkTool : Json → Json → Except String String :=
  fun n _ =>
    if jsonEqStr n "record_task" then .ok "stored"
    else .ok "\x7b\"task_id\": \"777\"\x7d"

/-- Tool boundary identical to `persistOkTool` except that `record_task`
raises (the Postgres mirror is unreachable). -/
def persistFailTool : Json → Json → Except String String :=
  fun n _ =>
    if jsonEqStr n "record_task" then .error "OperationalError: connection refused"
    else .ok "\x7b\"task_id\": \"777\"\x7d"

/-- Parsed form of `gtReqStr`. -/
def gtParsed : Json := .obj [("tool", .str "get_tasks"), ("arguments", .obj [])]

/-- Synthetic system turn recorded for the chained `get_tasks` execution. -/
def gtSysMsg : String := "Tool \x27get_tasks\x27 returned:\nTASKDATA"

set_option maxRecDepth 10000

/-- Evaluation fact: `gtReqStr` is already stripped. -/
theorem gt_trim : strTrim gtReqStr = gtReqStr := by rfl

/-- Evaluation fact: `gtReqStr` classifies as a tool request. -/
theorem gt_parse : tryParseToolRequest gtReqStr = some gtParsed := by rfl

/-- Evaluation fact: the tool name extracted from `gtParsed`. -/
theorem gt_tool : jget gtParsed "tool" = Json.str "get_tasks" := by rfl

/-- Evaluation fact: the arguments extracted from `gtParsed`. -/
theorem gt_args : jget gtParsed "arguments" = Json.obj [] := by rfl

/-- Evaluation fact: `get_tasks` is not mirrored by `_maybe_persist_task`. -/
theorem gt_persist : maybePersistCalls (Json.str "get_tasks") (Json.obj []) "TASKDATA" = [] := by
  rfl

/-- Evaluation fact: `gtReqStr` starts with an opening brace. -/
theorem gt_sw : strStartsWith gtReqStr "\x7b" = true := by rfl

/-- Evaluation fact: `gtReqStr` ends with a closing brace. -/
theorem gt_ew : strEndsWith gtReqStr "\x7d" = true := by rfl

/-- Evaluation fact: re-serialising `gtParsed` reproduces `gtReqStr`. -/
theorem gt_dumps : jsonDumps gtParsed = gtReqStr := by rfl

/-- Evaluation fact: rendering of the chained tool name. -/
theorem gt_py : pyStr (Json.str "get_tasks") = "get_tasks" := by rfl

/-- Evaluation fact: `gtReqStr` is nonempty. -/
theorem gt_ne : ¬ (gtReqStr = "") := by decide

/-- One iteration of the Agent_Pstorage loop under the constant `get_tasks`
oracle executes the classified tool, re-asks, and executes the chained
request: two tool executions and three engine calls per iteration. -/
theorem gtIter (n k : Nat) (hist : List Msg) (calls : List (Json × Json)) :
    psLoop gtOracle psOkTool (n + 1) k hist calls
      = psLoop gtOracle psOkTool n (k + 3)
          (hist ++ [⟨"assistant", gtReqStr⟩, ⟨"system", gtSysMsg⟩])
          (calls ++ [(Json.str "get_tasks", Json.obj []), (Json.str "get_tasks", Json.obj [])]) := by
  conv_lhs => rw [psLoop]
  simp only [gtOracle, psOkTool, gt_trim, gt_parse, gt_tool, gt_args, gt_persist, gt_sw, gt_ew,
    gt_dumps, gt_py, if_neg gt_ne, Bool.and_self, if_true, List.append_assoc, List.cons_append,
    List.nil_append]
  have hs : "Tool \x27" ++ "get_tasks" ++ "\x27 returned:\n" ++ "TASKDATA" = gtSysMsg := rfl
  have hk : k + 1 + 1 + 1 = k + 3 := by omega
  rw [hs, hk]

/-- Number of mirror calls issued by `_maybe_persist_task` for one tool
execution: one for `create_work_item`, none otherwise. -/
theorem maybePersist_len (n a : Json) (o : String) :
    (maybePersistCalls n a o).length = if jsonEqStr n "create_work_item" then 1 else 0 := by
  unfold maybePersistCalls
  split <;> simp_all

/-- Each remaining loop iteration adds at most three tool executions (the
classified request, the optional persistence mirror, and the chained
request). -/
theorem psLoop_calls_le (oracle : Nat → String) (tool : Json → Json → Except String String) :
    ∀ steps k hist calls,
      (psLoop oracle tool steps k hist calls).calls.length ≤ calls.length + 3 * steps := by
  intro steps
  induction steps with
  | zero => intro k hist calls; simp [psLoop]
  | succ n ih =>
    intro k hist calls
    simp only [psLoop]
    split
    · simp
    · split
      · simp [List.length_append]; omega
      · split
        · simp [List.length_append, maybePersist_len]
          split <;> omega
        · split
          · simp [List.length_append, maybePersist_len]
            split <;> omega
          · refine le_trans (ih _ _ _) ?_
            simp [List.length_append, maybePersist_len]
            split <;> omega

/-- A loop invocation either ends before the ceiling or returns exactly the
fixed exhaustion message. -/
theorem psLoop_exhausted_safety (oracle : Nat → String) (tool : Json → Json → Except String String) :
    ∀ steps k hist calls,
      (psLoop oracle tool steps k hist calls).exhausted = false ∨
      (psLoop oracle tool steps k hist calls).result = .ok safetyMsg := by
  intro steps
  induction steps with
  | zero => intro k hist calls; right; rfl
  | succ n ih =>
    intro k hist calls
    simp only [psLoop]
    split
    · left; rfl
    · split
      · left; rfl
      · split
        · left; rfl
        · split
          · left; rfl
          · exact ih _ _ _

/-- The loop only ever appends to the conversation history. -/
theorem psLoop_hist_ext (oracle : Nat → String) (tool : Json → Json → Except String String) :
    ∀ steps k hist calls,
      ∃ ext, (psLoop oracle tool steps k hist calls).hist = hist ++ ext := by
  intro steps
  induction steps with
  | zero => intro k hist calls; exact ⟨_, rfl⟩
  | succ n ih =>
    intro k hist calls
    simp only [psLoop]
    split
    · exact ⟨_, rfl⟩
    · split
      · exact ⟨[], by simp⟩
      · split
        · exact ⟨_, rfl⟩
        · split
          · exact ⟨_, rfl⟩
          · obtain ⟨ext, hext⟩ := ih _ _ _
            exact ⟨_, by rw [hext, List.append_assoc, List.append_assoc]⟩

/-- Whenever the loop returns a string (rather than propagating a fault),
that string was appended as the last assistant turn. -/
theorem psLoop_final_append (oracle : Nat → String) (tool : Json → Json → Except String String) :
    ∀ steps k hist calls,
      (∃ e, (psLoop oracle tool steps k hist calls).result = .error e) ∨
      (∃ r, (psLoop oracle tool steps k hist calls).result = .ok r ∧
        (psLoop oracle tool steps k hist calls).hist.getLast? = some ⟨"assistant", r⟩) := by
  intro steps
  induction steps with
  | zero =>
    intro k hist calls
    right
    exact ⟨safetyMsg, rfl, by simp [psLoop]⟩
  | succ n ih =>
    intro k hist calls
    simp only [psLoop]
    split
    · right; exact ⟨_, rfl, by simp⟩
    · split
      · left; exact ⟨_, rfl⟩
      · split
        · right; exact ⟨_, rfl, by simp⟩
        · split
          · left; exact ⟨_, rfl⟩
          · exact ih _ _ _

/-- Claim C1: the claim asserts that no mutating tool is ever executed
without a prior explicit confirmation turn, enforced mechanically by the
controller.  This run refutes the mechanical gate: with an entirely empty
prior history (so no confirmation turn exists anywhere), a model reply
requesting `create_work_item` is executed immediately — the controller
contains no gate of any kind (src/Agent_Pstorage/agent_core/agent.py lines
246-262 execute every classified request unconditionally), and the
persistence mirror fires as well; the returned FinalAnswer is the model's
follow-up text, not a clarification request. -/
theorem create_work_item_executed_with_no_prior_confirmation :
    (psRunAgentTurn c1Oracle c1Tool [] "assign Lopez a task to chase the rent roll").calls.map Prod.fst
      = [Json.str "create_work_item", Json.str "record_task"]
    ∧ (psRunAgentTurn c1Oracle c1Tool [] "assign Lopez a task to chase the rent roll").result
      = .ok "Created the task for Lopez." := ⟨by rfl, by rfl⟩

/-- Claim C2 (counterexample): the claim bounds tool executions per user
turn by the configured ceiling of 5, but a model that keeps emitting tool
requests drives the Agent_Pstorage turn to ten tool executions (two per
loop iteration, five iterations) before the exhaustion message. -/
theorem ten_tool_executions_in_a_single_turn :
    (psRunAgentTurn gtOracle psOkTool [] "hello").calls.length = 10 := by
  have hov : overrideHit "hello" = false := by rfl
  simp only [psRunAgentTurn, hov, Bool.false_eq_true, if_false]
  simp only [gtIter]
  simp only [psLoop]
  simp [List.length_append]

/-- Claim C2 (amended): per user turn the Agent_Pstorage controller performs
at most 15 tool executions — each of the 5 loop iterations can execute the
classified request, one `record_task` persistence mirror, and one chained
request — and whenever the iteration ceiling is exhausted without a
FinalAnswer the returned string is exactly the fixed exhaustion
message. -/
theorem tool_executions_per_turn_bounded_and_exhaustion_message
    (oracle : Nat → String) (tool : Json → Json → Except String String)
    (hist0 : List Msg) (u : String) :
    (psRunAgentTurn oracle tool hist0 u).calls.length ≤ 15
    ∧ ((psRunAgentTurn oracle tool hist0 u).exhausted = true →
        (psRunAgentTurn oracle tool hist0 u).result = .ok safetyMsg) := by
  simp only [psRunAgentTurn]
  split
  · constructor
    · split
      · simp
      · split <;> simp
    · split
      · simp
      · split <;> simp
  · constructor
    · have h := psLoop_calls_le oracle tool 5 0 (hist0 ++ [⟨"user", u⟩]) []
      simpa using h
    · intro h
      rcases psLoop_exhausted_safety oracle tool 5 0 (hist0 ++ [⟨"user", u⟩]) [] with hf | hr
      · rw [hf] at h; cases h
      · exact hr

/-- Claim C2 (witness): a concrete exhausted run — the constant `get_tasks`
oracle reaches the ceiling, and the theorem yields the exhaustion
message. -/
theorem tool_executions_bound_exhaustion_witness :
    (psRunAgentTurn gtOracle psOkTool [] "hello").exhausted = true
    ∧ (psRunAgentTurn gtOracle psOkTool [] "hello").result = .ok safetyMsg := by
  have hov : overrideHit "hello" = false := by rfl
  have hex : (psRunAgentTurn gtOracle psOkTool [] "hello").exhausted = true := by
    simp only [psRunAgentTurn, hov, Bool.false_eq_true, if_false]
    simp only [gtIter]
    simp only [psLoop]
  exact ⟨hex, (tool_executions_per_turn_bounded_and_exhaustion_message gtOracle psOkTool [] "hello").2 hex⟩

/-- Claim C3 (amended): the dedicated classifier `_try_parse_tool_request`
used by Agent_Pstorage and Lvl3Agent is total — its only failure mode is
the caught decode error, so it returns an `Option` and raises nothing —
and it classifies an input as a ToolRequest exactly when the trimmed text
is brace-delimited, decodes, and has the two-key dict shape; every other
input is a FinalAnswer.  (The UWAgent variant's inline classification is
not total; see the counterexample.) -/
theorem classifier_total_with_conservative_fallback (s : String) :
    ((strStartsWith (strTrim s) "\x7b" && strEndsWith (strTrim s) "\x7d") = false →
      tryParseToolRequest s = none)
    ∧ (∀ p, tryParseToolRequest s = some p ↔
        ((strStartsWith (strTrim s) "\x7b" && strEndsWith (strTrim s) "\x7d") = true
         ∧ jsonLoads (strTrim s) = .ok p ∧ isToolShape p = true)) := by
  constructor
  · intro h
    simp [tryParseToolRequest, h]
  · intro p
    constructor
    · intro hp
      by_cases hc : (strStartsWith (strTrim s) "\x7b" && strEndsWith (strTrim s) "\x7d") = true
      · refine ⟨hc, ?_⟩
        simp only [tryParseToolRequest, hc, if_true] at hp
        cases hj : jsonLoads (strTrim s) with
        | error e => rw [hj] at hp; cases hp
        | ok j =>
          rw [hj] at hp
          by_cases hs : isToolShape j = true
          · simp only [hs, if_true, Option.some.injEq] at hp
            subst hp
            exact ⟨rfl, hs⟩
          · simp [hs] at hp
      · have hnone : tryParseToolRequest s = none := by
          simp only [Bool.not_eq_true] at hc
          simp [tryParseToolRequest, hc]
        rw [hnone] at hp; cases hp
    · rintro ⟨hc, hj, hs⟩
      simp [tryParseToolRequest, hc, hj, hs]

/-- Claim C3 (witness): a plain-text reply fails the brace test and is
classified as a FinalAnswer. -/
theorem classifier_fallback_witness :
    ((strStartsWith (strTrim "plain text answer") "\x7b"
        && strEndsWith (strTrim "plain text answer") "\x7d") = false)
    ∧ tryParseToolRequest "plain text answer" = none := by
  have h : (strStartsWith (strTrim "plain text answer") "\x7b"
      && strEndsWith (strTrim "plain text answer") "\x7d") = false := by rfl
  exact ⟨h, (classifier_total_with_conservative_fallback "plain text answer").1 h⟩

/-- Claim C3 (counterexample): in the UWAgent variant the classification of
the model reply is not total and does not fall back to FinalAnswer — on
the brace-delimited JSON object without the two-key shape, the unguarded
`parsed["tool"]` subscript raises `KeyError`, which propagates out of
`run_agent_turn_async` as an error instead of any classification. -/
theorem uw_inline_classification_raises_keyerror :
    (uwRunAgentTurn uwC3Oracle uwC3Tool [] "hi there").result = .error "KeyError: tool" := by rfl

/-- Claim C4: the claim says an unknown-tool request is reported back into
the conversation as a synthetic tool-error result and the turn still
returns a well-formed FinalAnswer, no error reaching the caller.  This run
refutes it: the controller wraps no try/except around the tool call
(src/Agent_Pstorage/agent_core/agent.py line 256), so when the tool
boundary faults on the out-of-catalog name the exception propagates to the
caller of `run_agent_turn_async` and the conversation history records no
synthetic error turn and no FinalAnswer — only the user turn. -/
theorem unknown_tool_fault_propagates_unhandled :
    (psRunAgentTurn c4Oracle c4Tool [] "please use the bogus tool").result
      = .error "ToolError: Unknown tool: bogus_tool"
    ∧ (psRunAgentTurn c4Oracle c4Tool [] "please use the bogus tool").hist
      = [⟨"user", "please use the bogus tool"⟩] := ⟨by rfl, by rfl⟩

/-- Claim C5 (counterexample): the claim says a structured-JSON
summarization reply triggers one more re-prompt before falling back to the
raw tool result.  In the override path there is no JSON check at all: the
engine's brace-delimited reply is returned verbatim as the FinalAnswer
after exactly one engine ask, and the raw tool result is never used. -/
theorem override_returns_structured_json_unretried :
    (psRunAgentTurn c5Oracle c5Tool [] "what\x27s in the pipeline").result
      = .ok "\x7b\"a\": 1\x7d"
    ∧ (psRunAgentTurn c5Oracle c5Tool [] "what\x27s in the pipeline").llm = 1 := ⟨by rfl, by rfl⟩

/-- Claim C5 (amended): for every user text matching the pipeline/queue
override, the Agent_Pstorage controller issues exactly one fixed tool call
(`get_tasks` with status "open") and asks the engine at most twice — once,
plus one retry only if the first reply is empty after trimming; the
returned FinalAnswer is the first nonempty trimmed reply, or the fixed
string "No tasks found." when both are empty.  No JSON re-check, no third
re-prompt, and no fallback to the raw tool result exist in this path. -/
theorem override_path_one_call_one_ask_one_retry
    (oracle : Nat → String) (tool : Json → Json → Except String String)
    (hist0 : List Msg) (u : String) (out : String)
    (hov : overrideHit u = true)
    (htool : tool (Json.str "get_tasks") (Json.obj [("status", Json.str "open")]) = .ok out) :
    (psRunAgentTurn oracle tool hist0 u).calls
        = [(Json.str "get_tasks", Json.obj [("status", Json.str "open")])]
    ∧ (psRunAgentTurn oracle tool hist0 u).llm ≤ 2
    ∧ (psRunAgentTurn oracle tool hist0 u).result
        = .ok (if strTrim (oracle 0) = "" then
                 (if strTrim (oracle 1) = "" then "No tasks found." else strTrim (oracle 1))
               else strTrim (oracle 0)) := by
  simp only [psRunAgentTurn, hov, if_true, htool]
  by_cases h1 : strTrim (oracle 0) = "" <;> simp [h1]

/-- Claim C5 (witness): a concrete override-matched run executing exactly
the fixed `get_tasks` call with at most two engine asks. -/
theorem override_path_witness :
    overrideHit "show the queue" = true
    ∧ (psRunAgentTurn c5wOracle c5wTool [] "show the queue").calls
        = [(Json.str "get_tasks", Json.obj [("status", Json.str "open")])]
    ∧ (psRunAgentTurn c5wOracle c5wTool [] "show the queue").llm ≤ 2 := by
  have hov : overrideHit "show the queue" = true := by rfl
  have htool : c5wTool (Json.str "get_tasks") (Json.obj [("status", Json.str "open")])
      = .ok "ROWS" := by rfl
  exact ⟨hov, (override_path_one_call_one_ask_one_retry c5wOracle c5wTool [] "show the queue" "ROWS" hov htool).1,
    (override_path_one_call_one_ask_one_retry c5wOracle c5wTool [] "show the queue" "ROWS" hov htool).2.1⟩

/-- Claim C6 (counterexample): the claim says every completed turn's
FinalAnswer — including override-matched turns — is appended to the
conversation store before being returned.  In an override-matched turn the
summary is returned directly (src/Agent_Pstorage/agent_core/agent.py line
227) and the store ends the turn holding only the user turn. -/
theorem override_final_answer_never_appended :
    (psRunAgentTurn c6Oracle c6Tool [] "check the queue please").result = .ok "All done."
    ∧ (psRunAgentTurn c6Oracle c6Tool [] "check the queue please").hist
      = [⟨"user", "check the queue please"⟩] := ⟨by rfl, by rfl⟩

/-- Claim C6 (amended): the conversation store grows only by appends — the
prior history followed by the user turn is always a prefix of the final
history, so nothing is removed or reordered — and in every non-override
turn that returns normally the returned FinalAnswer is the last appended
assistant turn; override-matched turns return without appending their
answer, and synthetic request/result turns are appended only for the
chained (second) tool execution of a loop iteration. -/
theorem history_append_only_final_answer_appended_outside_override
    (oracle : Nat → String) (tool : Json → Json → Except String String)
    (hist0 : List Msg) (u : String) :
    (∃ ext, (psRunAgentTurn oracle tool hist0 u).hist = hist0 ++ ⟨"user", u⟩ :: ext)
    ∧ (overrideHit u = false → ∀ r,
        (psRunAgentTurn oracle tool hist0 u).result = .ok r →
        (psRunAgentTurn oracle tool hist0 u).hist.getLast? = some ⟨"assistant", r⟩) := by
  constructor
  · simp only [psRunAgentTurn]
    split
    · split
      · exact ⟨[], by simp⟩
      · split <;> exact ⟨[], by simp⟩
    · obtain ⟨ext, hext⟩ := psLoop_hist_ext oracle tool 5 0 (hist0 ++ [⟨"user", u⟩]) []
      exact ⟨ext, by rw [hext]; simp⟩
  · intro hov r hr
    simp only [psRunAgentTurn, hov, Bool.false_eq_true, if_false] at hr ⊢
    rcases psLoop_final_append oracle tool 5 0 (hist0 ++ [⟨"user", u⟩]) [] with ⟨e, he⟩ | ⟨r', hr', hl⟩
    · rw [he] at hr; cases hr
    · rw [hr'] at hr
      cases hr
      exact hl

/-- Claim C6 (witness): a concrete non-override turn whose returned answer
is the last appended assistant turn. -/
theorem history_final_append_witness :
    overrideHit "good morning" = false
    ∧ (psRunAgentTurn c6wOracle c6wTool [] "good morning").result = .ok "Hi!"
    ∧ (psRunAgentTurn c6wOracle c6wTool [] "good morning").hist.getLast?
        = some ⟨"assistant", "Hi!"⟩ := by
  have hov : overrideHit "good morning" = false := by rfl
  have hr : (psRunAgentTurn c6wOracle c6wTool [] "good morning").result = .ok "Hi!" := by rfl
  exact ⟨hov, hr,
    (history_append_only_final_answer_appended_outside_override c6wOracle c6wTool [] "good morning").2 hov "Hi!" hr⟩

/-- Claim C7: the claim says every `read_file` path is sandboxed to an
allowed root, with paths resolving outside refused and never read.  Both
cited implementations violate this: the Agent_Pstorage `read_file` opens
any path with no containment check at all (here it reads `/etc/passwd`),
and the UWAgent textual-prefix check admits a path that resolves outside
the allowed root into a sibling directory whose name shares the root as a
prefix — contradicting its own docstring, which promises to block every
escape. -/
theorem read_file_traversal_outside_allowed_root :
    psReadFile evilFs "/etc/passwd" = "root:x:0:0:root:/root:/bin/bash"
    ∧ uwReadFile evilFs "../shared_evil/secret.txt" = .ok "TOP SECRET"
    ∧ uwReadFileAllowed "../shared_evil/secret.txt" = true
    ∧ isWithinRoot (uwCandidate "../shared_evil/secret.txt") = false :=
  ⟨by rfl, by rfl, by rfl, by rfl⟩

/-- Claim C8 (counterexample): at the claim's example input the UWAgent
`debt_yield` does not return a descriptive error text — it raises
`ValueError` (modelled as `.error`), leaving the reporting to the
surrounding tool framework. -/
theorem uw_debt_yield_raises_value_error :
    debt_yield_uw 100000 0 = .error "ValueError: loan_amount cannot be 0." := by rfl

/-- Claim C8 (amended): on a zero loan amount the Agent_Pstorage
`debt_yield` returns the descriptive division-error text (the
`ZeroDivisionError` is caught inside the tool), while the UWAgent variant
instead raises `ValueError("loan_amount cannot be 0.")` rather than
returning a text result. -/
theorem debt_yield_zero_division_reported (noi : Rat) :
    debt_yield_ps noi 0 = "[debt_yield error] ZeroDivisionError: float division by zero"
    ∧ debt_yield_uw noi 0 = .error "ValueError: loan_amount cannot be 0." := by
  constructor <;> simp [debt_yield_ps, debt_yield_uw]

/-- Claim C9: the UWAgent `run_agent_turn_async` performs at most one tool
invocation per user turn, for every oracle and tool boundary; and in a
concrete run whose post-tool reply is itself a syntactically valid tool
request, that reply is returned verbatim as the final answer without being
re-classified or executed — no chaining, no iteration loop. -/
theorem uw_turn_executes_at_most_one_tool :
    (∀ (oracle : Nat → String) (tool : Json → Json → Except String String)
       (hist0 : List Msg) (u : String),
        (uwRunAgentTurn oracle tool hist0 u).calls.length ≤ 1)
    ∧ (uwRunAgentTurn gpOracle uwOkTool [] "what is the status").calls.length = 1
    ∧ (uwRunAgentTurn gpOracle uwOkTool [] "what is the status").result = .ok gpReqStr := by
  refine ⟨?_, by rfl, by rfl⟩
  intro oracle tool hist0 u
  simp only [uwRunAgentTurn]
  split
  · simp
  · simp
  · split <;> simp

/-- Claim C10: whenever a `create_work_item` output decodes to a JSON object
with a truthy `task_id`, the `_maybe_persist_task` mirror invokes
`record_task` with an extra "task_id" argument key that `record_task`'s
declared parameter list (borrower, officer, note, status) does not
contain; and the mirror call's outcome is swallowed — two otherwise
identical turns, one with `record_task` failing and one with it
succeeding, are observably identical. -/
theorem persist_mirror_extra_task_id_key_errors_swallowed :
    (∀ (targs : Json) (out : String) (fs : List (String × Json)),
        jsonLoads out = Except.ok (Json.obj fs) →
        jsonTruthy ((jlookup fs "task_id").getD Json.null) = true →
        maybePersistCalls (Json.str "create_work_item") targs out
            = [(Json.str "record_task", persistArgs targs out)]
        ∧ (jsonKeys (persistArgs targs out)).contains "task_id" = true
        ∧ recordTaskParams.contains "task_id" = false)
    ∧ psRunAgentTurn c10Oracle persistOkTool [] "assign Lopez a task about ACME"
        = psRunAgentTurn c10Oracle persistFailTool [] "assign Lopez a task about ACME" := by
  constructor
  · intro targs out fs h1 h2
    refine ⟨by simp [maybePersistCalls, jsonEqStr], ?_, by decide⟩
    simp [persistArgs, h1, h2, jsonKeys]
  · rfl

/-- Claim C10 (witness): a concrete mirrored task whose built argument
mapping carries the undeclared "task_id" key. -/
theorem persist_mirror_witness :
    jsonLoads "\x7b\"task_id\": \"555\"\x7d"
        = Except.ok (Json.obj [("task_id", Json.str "555")])
    ∧ jsonTruthy ((jlookup [("task_id", Json.str "555")] "task_id").getD Json.null) = true
    ∧ (jsonKeys (persistArgs (Json.obj [("borrower", Json.str "ACME")])
        "\x7b\"task_id\": \"555\"\x7d")).contains "task_id" = true := by
  have h1 : jsonLoads "\x7b\"task_id\": \"555\"\x7d"
      = Except.ok (Json.obj [("task_id", Json.str "555")]) := by rfl
  have h2 : jsonTruthy ((jlookup [("task_id", Json.str "555")] "task_id").getD Json.null)
      = true := by rfl
  exact ⟨h1, h2,
    (persist_mirror_extra_task_id_key_errors_swallowed.1
      (Json.obj [("borrower", Json.str "ACME")]) "\x7b\"task_id\": \"555\"\x7d"
      [("task_id", Json.str "555")] h1 h2).2.1⟩
